import Mathlib

/-!
Shallow embedding of `generador_facturas.py` (class `ShopifyInvoiceGenerator`)
from the shopify-webhook repository, together with proofs about the claims of
its specification.

Modelling conventions:
* Python `float` money amounts are modelled as `ℚ` (every amount that occurs in
  an invoice is an exact decimal, and all operations performed on amounts —
  parsing, comparison with 0, multiplication by an integer quantity,
  rounding for display — are exact on such values).
* Python dictionaries with `.get` access are modelled as structures with
  `Option` fields; `.get(key, default)` becomes `Option.getD`.
* `datetime` values are modelled by a calendar date (`PyDate`) plus, for parsed
  timestamps, the time-of-day fields; only the calendar date is ever used by
  the rendering code (`strftime('%d/%m/%Y')`).
* Functions that can raise are modelled with `Except String` / `Option`;
  network calls (Shopify fetch, OneDrive upload) are abstracted as
  `Except`-returning stage parameters of the orchestrator.
-/

/-! ## Calendar dates (the fragment of `datetime` used by the code) -/

/-- A proleptic-Gregorian calendar date, as carried by a Python `datetime`. -/
structure PyDate where
  year : ℤ
  month : ℕ
  day : ℕ
deriving DecidableEq, Repr

/-- Gregorian leap-year rule (as used by `datetime`). -/
def isLeap (y : ℤ) : Bool :=
  y % 4 == 0 && (y % 100 != 0 || y % 400 == 0)

/-- Number of days in a month of a given year. -/
def daysInMonth (y : ℤ) (m : ℕ) : ℕ :=
  if m = 2 then (if isLeap y then 29 else 28)
  else if m = 4 ∨ m = 6 ∨ m = 9 ∨ m = 11 then 30
  else 31

/-- Serial day number of a civil date (days since 1970-01-01, Hinnant's
`days_from_civil`); the arithmetic `datetime` performs for `timedelta`. -/
def toSerialDay (d : PyDate) : ℤ :=
  let y : ℤ := d.year - (if d.month ≤ 2 then 1 else 0)
  let era : ℤ := Int.fdiv y 400
  let yoe : ℤ := y - era * 400
  let mp : ℕ := if 2 < d.month then d.month - 3 else d.month + 9
  let doy : ℤ := ((153 * (mp : ℤ) + 2) / 5) + (d.day : ℤ) - 1
  let doe : ℤ := yoe * 365 + yoe / 4 - yoe / 100 + doy
  era * 146097 + doe - 719468

/-- Civil date of a serial day number (Hinnant's `civil_from_days`). -/
def ofSerialDay (z : ℤ) : PyDate :=
  let z' := z + 719468
  let era := Int.fdiv z' 146097
  let doe := z' - era * 146097
  let yoe := (doe - doe / 1460 + doe / 36524 - doe / 146096) / 365
  let y := yoe + era * 400
  let doy := doe - (365 * yoe + yoe / 4 - yoe / 100)
  let mp := (5 * doy + 2) / 153
  let dd := doy - (153 * mp + 2) / 5 + 1
  let m := if mp < 10 then mp + 3 else mp - 9
  ⟨y + (if m ≤ 2 then 1 else 0), m.toNat, dd.toNat⟩

/-- Model of `d + timedelta(days=n)` on the calendar-date part of a `datetime`. -/
def addDays (d : PyDate) (n : ℤ) : PyDate :=
  ofSerialDay (toSerialDay d + n)

/-- Zero-pad a number to two digits (strftime `%d` / `%m`). -/
def pad2 (n : ℕ) : String :=
  if n < 10 then "0" ++ Nat.repr n else Nat.repr n

/-- Zero-pad a year to four digits (strftime `%Y`). -/
def padYear (y : ℤ) : String :=
  let a := y.natAbs
  let fill := if a < 10 then "000" else if a < 100 then "00" else if a < 1000 then "0" else ""
  (if y < 0 then "-" else "") ++ fill ++ Nat.repr a

/-- Rendering `datetime.strftime('%d/%m/%Y')`. -/
def strftimeDMY (d : PyDate) : String :=
  pad2 d.day ++ "/" ++ pad2 d.month ++ "/" ++ padYear d.year

/-! ## `format_currency` (lines 85–90) -/

/-- Round-half-even to an integer, the rounding used by Python's `format(x, ',.0f')`. -/
def pyRoundHalfEven (q : ℚ) : ℤ :=
  let f := Rat.floor q
  let r := q - (f : ℚ)
  if r < mkRat 1 2 then f
  else if mkRat 1 2 < r then f + 1
  else if f % 2 = 0 then f else f + 1

/-- Insert a comma after every group of three digits; the input list is the
digits least-significant first, the output likewise. -/
def group3 : List Char → List Char
  | c1 :: c2 :: c3 :: c4 :: rest => c1 :: c2 :: c3 :: ',' :: group3 (c4 :: rest)
  | l => l

/-- Thousands-grouped decimal rendering of a natural number (`format(n, ',d')`). -/
def commaGroupNat (n : ℕ) : String :=
  String.mk ((group3 (Nat.repr n).data.reverse).reverse)

/-- Thousands-grouped decimal rendering of an integer. -/
def commaGroupInt (z : ℤ) : String :=
  (if z < 0 then "-" else "") ++ commaGroupNat z.natAbs

/-- Embedding of `format_currency` (lines 85–90).  Source:
`try: return f"${amount:,.0f} COP" except: return f"${amount:.2f}"`.
For a `float` argument (the declared type) the grouped form never raises, so
the two-decimal fallback branch is unreachable; the embedding is the
grouped form. -/
def format_currency (amount : ℚ) : String :=
  "$" ++ commaGroupInt (pyRoundHalfEven amount) ++ " COP"

/-! ## `format_date` (lines 92–98) -/

/-- A parsed `datetime` value: calendar date, time of day, microseconds and an
optional UTC offset in seconds. -/
structure PyDateTime where
  date : PyDate
  hour : ℕ
  minute : ℕ
  second : ℕ
  microsecond : ℕ
  utcOffsetSeconds : Option ℤ
deriving DecidableEq, Repr

/-- Model of `str.replace('Z', '+00:00')`: every occurrence of `'Z'` is replaced. -/
def replaceZChars : List Char → List Char
  | [] => []
  | c :: rest =>
    if c = 'Z' then '+' :: '0' :: '0' :: ':' :: '0' :: '0' :: replaceZChars rest
    else c :: replaceZChars rest

/-- Model of `date_string.replace('Z', '+00:00')` on `String`. -/
def pyReplaceZ (s : String) : String :=
  String.mk (replaceZChars s.data)

/-- Read exactly `n` decimal digits, returning their value and the rest. -/
def readDigitsN (acc : ℕ) : ℕ → List Char → Option (ℕ × List Char)
  | 0, l => some (acc, l)
  | n + 1, c :: rest =>
    if c.isDigit then readDigitsN (acc * 10 + (c.toNat - 48)) n rest else none
  | _ + 1, [] => none

/-- Consume one expected character. -/
def expectChar (c : Char) : List Char → Option (List Char)
  | x :: rest => if x = c then some rest else none
  | [] => none

/-- Numeric value of a digit list (most-significant first). -/
def natOfDigits (l : List Char) : ℕ :=
  l.foldl (fun a c => a * 10 + (c.toNat - 48)) 0

/-- Parse the fractional-seconds part after the dot: exactly 3 or 6 digits,
yielding microseconds (the grammar accepted by `datetime.fromisoformat`). -/
def parseFrac (l : List Char) : Option (ℕ × List Char) :=
  let ds := l.takeWhile Char.isDigit
  let rest := l.dropWhile Char.isDigit
  if ds.length = 3 then some (natOfDigits ds * 1000, rest)
  else if ds.length = 6 then some (natOfDigits ds, rest)
  else none

/-- Parse the optional UTC-offset suffix `±HH:MM[:SS[.ffffff]]` (which must end
the string), returning the offset in seconds. -/
def parseTzPart : List Char → Option (Option ℤ)
  | [] => some none
  | c :: rest => do
    let sign : ℤ ← if c = '+' then some 1 else if c = '-' then some (-1) else none
    let (th, r1) ← readDigitsN 0 2 rest
    let r2 ← expectChar ':' r1
    let (tm, r3) ← readDigitsN 0 2 r2
    let (ts, r5) ← match r3 with
      | ':' :: r4 => do
          let (ts, r5) ← readDigitsN 0 2 r4
          match r5 with
          | '.' :: r6 =>
              let ds := r6.takeWhile Char.isDigit
              let r7 := r6.dropWhile Char.isDigit
              if ds.length = 6 then pure (ts, r7) else none
          | _ => pure (ts, r5)
      | _ => pure (0, r3)
    guard (r5 = [] ∧ th ≤ 23 ∧ tm ≤ 59 ∧ ts ≤ 59)
    pure (some (sign * ((th : ℤ) * 3600 + (tm : ℤ) * 60 + (ts : ℤ))))

/-- Parse the time-of-day part `HH[:MM[:SS[.fff[fff]]]]` followed by the
optional UTC offset. -/
def parseTimeTz (l : List Char) : Option (ℕ × ℕ × ℕ × ℕ × Option ℤ) := do
  let (hh, r1) ← readDigitsN 0 2 l
  let (mm, ss, us, rest) ← match r1 with
    | ':' :: r2 => do
        let (mm, r3) ← readDigitsN 0 2 r2
        match r3 with
        | ':' :: r4 => do
            let (ss, r5) ← readDigitsN 0 2 r4
            match r5 with
            | '.' :: r6 => do
                let (us, r7) ← parseFrac r6
                pure (mm, ss, us, r7)
            | _ => pure (mm, ss, 0, r5)
        | _ => pure (mm, 0, 0, r3)
    | _ => pure (0, 0, 0, r1)
  let tz ← parseTzPart rest
  guard (hh ≤ 23 ∧ mm ≤ 59 ∧ ss ≤ 59)
  pure (hh, mm, ss, us, tz)

/-- Embedding of `datetime.fromisoformat`: `YYYY-MM-DD` optionally followed by a one-char
separator and `HH[:MM[:SS[.fff[fff]]]][±HH:MM[:SS[.ffffff]]]`; all fields are
range-checked (year ≥ 1, valid month/day, hour ≤ 23, minute/second ≤ 59). -/
def fromisoformat (s : String) : Option PyDateTime := do
  let (y, r1) ← readDigitsN 0 4 s.data
  let r2 ← expectChar '-' r1
  let (mo, r3) ← readDigitsN 0 2 r2
  let r4 ← expectChar '-' r3
  let (d, r5) ← readDigitsN 0 2 r4
  guard (1 ≤ y ∧ 1 ≤ mo ∧ mo ≤ 12 ∧ 1 ≤ d ∧ d ≤ daysInMonth (y : ℤ) mo)
  match r5 with
  | [] => pure ⟨⟨(y : ℤ), mo, d⟩, 0, 0, 0, 0, none⟩
  | _ :: r6 => do
      let (hh, mm, ss, us, tz) ← parseTimeTz r6
      pure ⟨⟨(y : ℤ), mo, d⟩, hh, mm, ss, us, tz⟩

/-- Embedding of `format_date` (lines 92–98): replace `'Z'` with `'+00:00'`, parse with
`fromisoformat` and render `%d/%m/%Y`; on parse failure return the input
unchanged. -/
def format_date (date_string : String) : String :=
  match fromisoformat (pyReplaceZ date_string) with
  | some dt => strftimeDMY dt.date
  | none => date_string

example : format_date "2024-03-05T10:00:00Z" = "05/03/2024" := by decide
example : format_date "not-a-date" = "not-a-date" := by decide
example : format_currency 1234567 = "$1,234,567 COP" := by with_unfolding_all rfl
example : format_currency 12345 = "$12,345 COP" := by with_unfolding_all rfl
example : addDays ⟨2024, 3, 5⟩ 30 = ⟨2024, 4, 4⟩ := by decide
example : addDays ⟨2024, 6, 1⟩ 30 = ⟨2024, 7, 1⟩ := by decide

/-! ## Data model (§3 of the spec; the dictionary shapes read by the code) -/

/-- Company profile assembled in `__init__` (lines 27–33). -/
structure CompanyInfo where
  name : String
  address : String
  phone : String
  email : String
  tax_id : String
deriving DecidableEq, Repr

/-- The `customer` sub-dictionary; every field is read with `.get`. -/
structure Customer where
  first_name : Option String
  last_name : Option String
  email : Option String
  phone : Option String
deriving DecidableEq, Repr

/-- The `shipping_address` sub-dictionary; every field is read with `.get`. -/
structure ShippingAddress where
  first_name : Option String
  last_name : Option String
  address1 : Option String
  address2 : Option String
  city : Option String
  province : Option String
  zip : Option String
  country : Option String
deriving DecidableEq, Repr

/-- One entry of `line_items` (fields read at lines 207–217). -/
structure LineItem where
  title : String
  variant_title : Option String
  sku : Option String
  price : ℚ
  quantity : ℤ
deriving DecidableEq, Repr

/-- The `shop_money` sub-dictionary of `total_shipping_price_set`. -/
structure ShopMoney where
  amount : Option ℚ
deriving DecidableEq, Repr

/-- The `total_shipping_price_set` sub-dictionary. -/
structure ShippingPriceSet where
  shop_money : Option ShopMoney
deriving DecidableEq, Repr

/-- An order record as consumed by `create_word_document` and
`generate_invoice`.  Fields read with `order_data[...]` are plain; fields read
with `.get` are `Option`. -/
structure Order where
  order_number : String
  created_at : String
  customer : Option Customer
  shipping_address : Option ShippingAddress
  line_items : List LineItem
  subtotal_price : ℚ
  total_tax : Option ℚ
  total_shipping_price_set : Option ShippingPriceSet
  total_price : ℚ
deriving DecidableEq, Repr

/-- Python truthiness of an optional string (`None` and `''` are falsy). -/
def truthyStr (o : Option String) : Bool :=
  match o with
  | none => false
  | some s => s ≠ ""

/-- The shipping amount (line 230):
`float(order_data.get('total_shipping_price_set', {}).get('shop_money', {}).get('amount', 0))`. -/
def shippingOf (o : Order) : ℚ :=
  (((o.total_shipping_price_set.getD ⟨none⟩).shop_money.getD ⟨none⟩).amount.getD 0)

/-- The tax amount (line 229): `float(order_data.get('total_tax', 0))`. -/
def taxesOf (o : Order) : ℚ :=
  o.total_tax.getD 0

/-! ## `create_word_document` (lines 100–275) -/

/-- The textual content the renderer puts into the document, block by block in
document order.  Layout attributes (fonts, widths, alignment) carry no data and
are omitted; boldness of the one bold totals run is reflected by keeping the
TOTAL line as its own field. -/
structure InvoiceDoc where
  companyLines : List String
  invoiceTitle : String
  invoiceInfo : String
  billToLines : List String
  shipToLines : List String
  itemHeader : List String
  itemRows : List (List String)
  totalsLines : List String
  totalLine : String
  footerLines : List String
deriving DecidableEq, Repr

/-- One row of the products table (loop body, lines 207–217). -/
def itemRow (item : LineItem) : List String :=
  let product_name :=
    item.title ++ (if truthyStr item.variant_title then "\n" ++ item.variant_title.getD "" else "")
  [product_name,
   item.sku.getD "N/A",
   Int.repr item.quantity,
   format_currency item.price,
   format_currency (item.price * (item.quantity : ℚ))]

/-- Embedding of `create_word_document` (lines 100–275).  `today` is the
calendar date of `datetime.now()` at the moment of the call; the function
returns the saved file path (`filename + ".docx"`, line 268) and the document
content. -/
def create_word_document (company : CompanyInfo) (order_data : Order)
    (filename : String) (today : PyDate) : String × InvoiceDoc :=
  let companyLines :=
    [company.name, company.address, "Tel: " ++ company.phone,
     "Email: " ++ company.email, company.tax_id]
  let due_date := strftimeDMY (addDays today 30)
  let t1 := "No. Orden: " ++ order_data.order_number ++ "\n"
  let t2 := t1 ++ ("Fecha: " ++ format_date order_data.created_at ++ "\n")
  let invoiceInfo := t2 ++ ("Vencimiento: " ++ due_date)
  let billToLines :=
    ["FACTURAR A:"] ++
    (match order_data.customer with
     | some c =>
        [(c.first_name.getD "") ++ " " ++ (c.last_name.getD ""), c.email.getD ""] ++
        (if truthyStr c.phone then [c.phone.getD ""] else [])
     | none => [])
  let shipToLines :=
    ["ENVIAR A:"] ++
    (match order_data.shipping_address with
     | some sa =>
        [(sa.first_name.getD "") ++ " " ++ (sa.last_name.getD ""), sa.address1.getD ""] ++
        (if truthyStr sa.address2 then [sa.address2.getD ""] else []) ++
        [(sa.city.getD "") ++ ", " ++ (sa.province.getD ""),
         (sa.zip.getD "") ++ " - " ++ (sa.country.getD "")]
     | none => ["Información de envío no disponible"])
  let itemRows := order_data.line_items.map itemRow
  let subtotal := order_data.subtotal_price
  let taxes := taxesOf order_data
  let shipping := shippingOf order_data
  let total := order_data.total_price
  let totalsLines :=
    ["Subtotal: " ++ format_currency subtotal] ++
    (if shipping > 0 then ["Envío: " ++ format_currency shipping] else []) ++
    (if taxes > 0 then ["Impuestos: " ++ format_currency taxes] else [])
  let totalLine := "TOTAL: " ++ format_currency total
  let footerLines :=
    ["Gracias por su compra | " ++ company.name,
     "Esta es una factura generada automáticamente"]
  (filename ++ ".docx",
   { companyLines := companyLines
     invoiceTitle := "FACTURA"
     invoiceInfo := invoiceInfo
     billToLines := billToLines
     shipToLines := shipToLines
     itemHeader := ["Producto", "SKU", "Cantidad", "Precio Unit.", "Total"]
     itemRows := itemRows
     totalsLines := totalsLines
     totalLine := totalLine
     footerLines := footerLines })

/-! ## `generate_invoice` (lines 310–344) -/

/-- Result of a successful OneDrive upload (lines 300–304). -/
structure CloudInfo where
  document_id : String
  web_url : String
  download_url : String
deriving DecidableEq, Repr

/-- The `office_config` dictionary assembled in `__init__` (lines 20–25). -/
structure OfficeConfig where
  client_id : Option String
  client_secret : Option String
  tenant_id : Option String
  access_token : Option String
deriving DecidableEq, Repr

/-- Constructor behaviour (lines 20–25): the three credentials are read from
the configuration with `.get` and `access_token` is initialised to `None`. -/
def initOfficeConfig (client_id client_secret tenant_id : Option String) : OfficeConfig :=
  ⟨client_id, client_secret, tenant_id, none⟩

/-- The check at line 326: `all(self.office_config.values())` — every one of
the four stored values (including the cached `access_token`) must be truthy. -/
def officeAllTruthy (c : OfficeConfig) : Bool :=
  truthyStr c.client_id && truthyStr c.client_secret &&
  truthyStr c.tenant_id && truthyStr c.access_token

/-- The dictionary returned by `generate_invoice`: the tagged success record of
lines 320–324 (plus optional `cloud_info`) or the failure record of lines
341–344. -/
inductive InvoiceResult where
  | ok (order_number : String) (local_file_path : Option String)
      (cloud_info : Option CloudInfo)
  | err (error : String)
deriving DecidableEq, Repr

/-- The filename built at line 317:
`f"Factura_{order_data['order_number']}_{int(datetime.now().timestamp())}"`. -/
def invoiceFilename (order_data : Order) (ts : ℤ) : String :=
  "Factura_" ++ order_data.order_number ++ "_" ++ Int.repr ts

/-- Embedding of `generate_invoice` (lines 310–344).  The two network stages
and the renderer are passed as `Except`-returning functions (`fetch` is
`get_shopify_order`, `render` is `create_word_document` returning the saved
path, `upload` is `upload_to_onedrive`); `ts` is the integer timestamp used in
the filename, and in the source signature `save_local` defaults to `True` and
`upload_to_cloud` to `False`.  Besides the returned dictionary, the model reports the list of
files written (by a successful render) and the list of files deleted
(`os.remove`, line 333), in order to express the on-disk effect. -/
def generate_invoice
    (fetch : String → Except String Order)
    (render : Order → String → Except String String)
    (upload : String → String → Except String CloudInfo)
    (office : OfficeConfig) (ts : ℤ)
    (order_id : String) (save_local upload_to_cloud : Bool) :
    InvoiceResult × List String × List String :=
  match fetch order_id with
  | .error e => (.err e, [], [])
  | .ok order_data =>
    let filename := invoiceFilename order_data ts
    match render order_data filename with
    | .error e => (.err e, [], [])
    | .ok local_file_path =>
      if upload_to_cloud && officeAllTruthy office then
        match upload local_file_path filename with
        | .error e => (.err e, [local_file_path], [])
        | .ok cloud_info =>
          if save_local then
            (.ok order_data.order_number (some local_file_path) (some cloud_info),
             [local_file_path], [])
          else
            (.ok order_data.order_number none (some cloud_info),
             [local_file_path], [local_file_path])
      else
        (.ok order_data.order_number
           (if save_local then some local_file_path else none) none,
         [local_file_path], [])

/-! ## Concrete fixtures for counterexamples and witnesses -/

/-- The company profile configured in `app.py`. -/
def exCompany : CompanyInfo :=
  ⟨"CSHOP SAS", "CRA 34 3-65", "+57 3158103812", "info@cshop.co", "NIT: 901410087-8"⟩

/-- The end-to-end example order of §8 of the spec: two line items
(qty 2 @ 5000; qty 1 @ 10000), subtotal 20000, tax 0, shipping 0,
total 20000, no shipping address. -/
def exOrder : Order :=
  { order_number := "1001"
    created_at := "2024-03-05T10:00:00Z"
    customer := none
    shipping_address := none
    line_items :=
      [⟨"Camisa", none, some "SKU1", 5000, 2⟩,
       ⟨"Gorra", none, none, 10000, 1⟩]
    subtotal_price := 20000
    total_tax := none
    total_shipping_price_set := none
    total_price := 20000 }

example :
    (create_word_document exCompany exOrder "Factura_1001_1700000000" ⟨2024, 6, 1⟩).2.invoiceInfo
      = "No. Orden: 1001\nFecha: 05/03/2024\nVencimiento: 01/07/2024" := by decide
example :
    (create_word_document exCompany exOrder "Factura_1001_1700000000" ⟨2024, 6, 1⟩).2.totalsLines
      = ["Subtotal: $20,000 COP"] := by with_unfolding_all rfl
example :
    (create_word_document exCompany exOrder "Factura_1001_1700000000" ⟨2024, 6, 1⟩).2.totalLine
      = "TOTAL: $20,000 COP" := by with_unfolding_all rfl
example :
    itemRow ⟨"Camisa", none, some "SKU1", 5000, 2⟩
      = ["Camisa", "SKU1", "2", "$5,000 COP", "$10,000 COP"] := by with_unfolding_all rfl

/-! ## Claim C5 -/

/-- C5: `format_currency` is total: for every input amount it returns a string
— the thousands-grouped integer form between the `"$"` sign and the `" COP"`
suffix (for a float argument the grouped form always succeeds, so the
two-decimal fallback of line 90 is never taken) — exemplified on the spec's
inputs 1234567 and 12345. -/
theorem claim_C5_format_currency_total :
    (∀ amount : ℚ, format_currency amount
        = "$" ++ commaGroupInt (pyRoundHalfEven amount) ++ " COP")
    ∧ format_currency 1234567 = "$1,234,567 COP"
    ∧ format_currency 12345 = "$12,345 COP" := by
  refine ⟨fun amount => rfl, ?_, ?_⟩ <;> with_unfolding_all rfl

/-! ## Claim C6 -/

/-- C6: `format_date` renders every timestamp accepted by `fromisoformat`
(after the literal-`Z` replacement) as `DD/MM/YYYY`, and returns every
unparseable input unchanged; in particular `"2024-03-05T10:00:00Z"` renders as
`"05/03/2024"`. -/
theorem claim_C6_format_date :
    (∀ s dt, fromisoformat (pyReplaceZ s) = some dt →
        format_date s = strftimeDMY dt.date)
    ∧ (∀ s, fromisoformat (pyReplaceZ s) = none → format_date s = s)
    ∧ format_date "2024-03-05T10:00:00Z" = "05/03/2024" := by
  refine ⟨?_, ?_, by decide⟩
  · intro s dt h
    simp [format_date, h]
  · intro s h
    simp [format_date, h]

/-- Witness for C6: both branches exercised on concrete inputs, with the
parser hypotheses discharged by evaluation. -/
theorem claim_C6_format_date_witness :
    format_date "2026-12-31T23:59:59.123456+05:00" = "31/12/2026"
    ∧ format_date "31/12/2026" = "31/12/2026" :=
  ⟨claim_C6_format_date.1 "2026-12-31T23:59:59.123456+05:00"
      ⟨⟨2026, 12, 31⟩, 23, 59, 59, 123456, some 18000⟩ (by decide),
   claim_C6_format_date.2.1 "31/12/2026" (by decide)⟩

/-! ## Claim C1 -/

/-- C1 (amended): the due date printed at the end of the header's right-column
text is the date of `datetime.now()` at rendering time plus 30 calendar days —
not the order's creation date plus 30 days (line 146 uses `datetime.now()`). -/
theorem claim_C1_due_date_from_now
    (company : CompanyInfo) (order_data : Order) (filename : String) (today : PyDate) :
    ∃ pre, (create_word_document company order_data filename today).2.invoiceInfo
      = pre ++ ("Vencimiento: " ++ strftimeDMY (addDays today 30)) :=
  ⟨_, rfl⟩

/-- Counterexample for C1 as stated: for the example order created on
2024-03-05 and rendered on 2024-06-01, the header prints the due date
01/07/2024 (= render date + 30), and its text does not end with the creation
date + 30 days (04/04/2024) — so the printed due date is not
`creation date + 30`. -/
theorem claim_C1_counterexample :
    format_date "2024-03-05T10:00:00Z" = "05/03/2024"
    ∧ strftimeDMY (addDays ⟨2024, 3, 5⟩ 30) = "04/04/2024"
    ∧ ((create_word_document exCompany exOrder "Factura_1001_1700000000"
          ⟨2024, 6, 1⟩).2.invoiceInfo
        = "No. Orden: 1001\nFecha: 05/03/2024\nVencimiento: 01/07/2024")
    ∧ ¬ ∃ pre, (create_word_document exCompany exOrder "Factura_1001_1700000000"
          ⟨2024, 6, 1⟩).2.invoiceInfo
        = pre ++ ("Vencimiento: " ++ strftimeDMY (addDays ⟨2024, 3, 5⟩ 30)) := by
  refine ⟨by decide, by decide, by decide, ?_⟩
  rintro ⟨pre, h⟩
  have hd : ("Vencimiento: " ++ strftimeDMY (addDays ⟨2024, 3, 5⟩ 30)).data
      <:+ (create_word_document exCompany exOrder "Factura_1001_1700000000"
            ⟨2024, 6, 1⟩).2.invoiceInfo.data :=
    ⟨pre.data, by rw [h]; simp [String.data_append]⟩
  revert hd
  decide

/-! ## Claim C9 -/

/-- C9: rendering is repeatable — two renders of the same order and company at
(possibly different) times agree on the file path and on every content field
except the header info text, whose shared prefix is followed by the due date
derived from each render time (so the documents are identical whenever the
calendar day is unchanged). -/
theorem claim_C9_render_repeatable
    (company : CompanyInfo) (order_data : Order) (filename : String) (t₁ t₂ : PyDate) :
    (create_word_document company order_data filename t₁).1
      = (create_word_document company order_data filename t₂).1
    ∧ (create_word_document company order_data filename t₁).2.companyLines
      = (create_word_document company order_data filename t₂).2.companyLines
    ∧ (create_word_document company order_data filename t₁).2.invoiceTitle
      = (create_word_document company order_data filename t₂).2.invoiceTitle
    ∧ (create_word_document company order_data filename t₁).2.billToLines
      = (create_word_document company order_data filename t₂).2.billToLines
    ∧ (create_word_document company order_data filename t₁).2.shipToLines
      = (create_word_document company order_data filename t₂).2.shipToLines
    ∧ (create_word_document company order_data filename t₁).2.itemHeader
      = (create_word_document company order_data filename t₂).2.itemHeader
    ∧ (create_word_document company order_data filename t₁).2.itemRows
      = (create_word_document company order_data filename t₂).2.itemRows
    ∧ (create_word_document company order_data filename t₁).2.totalsLines
      = (create_word_document company order_data filename t₂).2.totalsLines
    ∧ (create_word_document company order_data filename t₁).2.totalLine
      = (create_word_document company order_data filename t₂).2.totalLine
    ∧ (create_word_document company order_data filename t₁).2.footerLines
      = (create_word_document company order_data filename t₂).2.footerLines
    ∧ ∃ pre,
        (create_word_document company order_data filename t₁).2.invoiceInfo
          = pre ++ ("Vencimiento: " ++ strftimeDMY (addDays t₁ 30))
        ∧ (create_word_document company order_data filename t₂).2.invoiceInfo
          = pre ++ ("Vencimiento: " ++ strftimeDMY (addDays t₂ 30)) :=
  ⟨rfl, rfl, rfl, rfl, rfl, rfl, rfl, rfl, rfl, rfl, _, rfl, rfl⟩

/-! ## Claim C7 -/

/-- Two string concatenations whose left parts start with different characters
are different strings. -/
theorem strAppendNe {a b : String} (x y : String) {c₁ c₂ : Char}
    (h₁ : a.data.head? = some c₁) (h₂ : b.data.head? = some c₂) (h : c₁ ≠ c₂) :
    a ++ x ≠ b ++ y := by
  intro he
  have hd := congrArg (fun s : String => s.data.head?) he
  simp only [String.data_append, List.head?_append, h₁, h₂] at hd
  exact h (Option.some.inj hd)

/-- C7: the totals block always contains the Subtotal line, contains the Envío
line exactly when the shipping amount is positive, contains the Impuestos line
exactly when the tax amount is positive, renders TOTAL directly from the
order's `total_price`, and treats a missing nested shipping money object as a
shipping amount of 0. -/
theorem claim_C7_totals_block
    (company : CompanyInfo) (order_data : Order) (filename : String) (today : PyDate) :
    (("Subtotal: " ++ format_currency order_data.subtotal_price)
        ∈ (create_word_document company order_data filename today).2.totalsLines)
    ∧ ((("Envío: " ++ format_currency (shippingOf order_data))
        ∈ (create_word_document company order_data filename today).2.totalsLines)
        ↔ shippingOf order_data > 0)
    ∧ ((("Impuestos: " ++ format_currency (taxesOf order_data))
        ∈ (create_word_document company order_data filename today).2.totalsLines)
        ↔ taxesOf order_data > 0)
    ∧ (create_word_document company order_data filename today).2.totalLine
        = "TOTAL: " ++ format_currency order_data.total_price
    ∧ (order_data.total_shipping_price_set = none → shippingOf order_data = 0)
    ∧ (∀ ps, order_data.total_shipping_price_set = some ps → ps.shop_money = none →
        shippingOf order_data = 0) := by
  have hES : ("Envío: " ++ format_currency (shippingOf order_data))
      ≠ ("Subtotal: " ++ format_currency order_data.subtotal_price) :=
    strAppendNe _ _ rfl rfl (by decide)
  have hEI : ("Envío: " ++ format_currency (shippingOf order_data))
      ≠ ("Impuestos: " ++ format_currency (taxesOf order_data)) :=
    strAppendNe _ _ rfl rfl (by decide)
  have hIS : ("Impuestos: " ++ format_currency (taxesOf order_data))
      ≠ ("Subtotal: " ++ format_currency order_data.subtotal_price) :=
    strAppendNe _ _ rfl rfl (by decide)
  have hIE : ("Impuestos: " ++ format_currency (taxesOf order_data))
      ≠ ("Envío: " ++ format_currency (shippingOf order_data)) :=
    strAppendNe _ _ rfl rfl (by decide)
  have hT : (create_word_document company order_data filename today).2.totalsLines
      = ["Subtotal: " ++ format_currency order_data.subtotal_price]
        ++ (if shippingOf order_data > 0
            then ["Envío: " ++ format_currency (shippingOf order_data)] else [])
        ++ (if taxesOf order_data > 0
            then ["Impuestos: " ++ format_currency (taxesOf order_data)] else []) := rfl
  refine ⟨?_, ?_, ?_, rfl, ?_, ?_⟩
  · rw [hT]; simp
  · rw [hT]
    by_cases hs : shippingOf order_data > 0
    · simp [hs]
    · by_cases ht : taxesOf order_data > 0
      · simp [hs, ht, hES, hEI]
      · simp [hs, ht, hES]
  · rw [hT]
    by_cases ht : taxesOf order_data > 0
    · simp [ht]
    · by_cases hs : shippingOf order_data > 0
      · simp [hs, ht, hIS, hIE]
      · simp [hs, ht, hIS]
  · intro h
    unfold shippingOf
    rw [h]
    rfl
  · intro ps h1 h2
    unfold shippingOf
    rw [h1]
    simp [h2]

/-- Witness for C7: the "missing shipping money object" hypotheses discharged
on the example order (whose shipping price set is absent). -/
theorem claim_C7_totals_block_witness :
    ("Subtotal: " ++ format_currency 20000)
      ∈ (create_word_document exCompany exOrder "Factura_1001_1700000000"
          ⟨2024, 6, 1⟩).2.totalsLines
    ∧ shippingOf exOrder = 0 :=
  ⟨(claim_C7_totals_block exCompany exOrder "Factura_1001_1700000000" ⟨2024, 6, 1⟩).1,
   (claim_C7_totals_block exCompany exOrder "Factura_1001_1700000000"
      ⟨2024, 6, 1⟩).2.2.2.2.1 rfl⟩

/-! ## Claim C8 -/

/-- C8: every line item of a rendered order gets a row whose SKU cell (column
index 1) holds the item's SKU, and holds the literal `"N/A"` whenever the SKU
is absent. -/
theorem claim_C8_sku_cell
    (company : CompanyInfo) (order_data : Order) (filename : String) (today : PyDate)
    (item : LineItem) (hmem : item ∈ order_data.line_items) :
    itemRow item ∈ (create_word_document company order_data filename today).2.itemRows
    ∧ (itemRow item)[1]? = some (item.sku.getD "N/A")
    ∧ (item.sku = none → (itemRow item)[1]? = some "N/A") := by
  refine ⟨?_, rfl, fun h => by simp [itemRow, h]⟩
  show itemRow item ∈ order_data.line_items.map itemRow
  exact List.mem_map_of_mem _ hmem

/-- Witness for C8: the membership hypothesis discharged on the example
order's second line item, which has no SKU. -/
theorem claim_C8_sku_cell_witness :
    itemRow ⟨"Gorra", none, none, 10000, 1⟩
      ∈ (create_word_document exCompany exOrder "Factura_1001_1700000000"
          ⟨2024, 6, 1⟩).2.itemRows
    ∧ (itemRow ⟨"Gorra", none, none, 10000, 1⟩)[1]? = some "N/A" :=
  ⟨(claim_C8_sku_cell exCompany exOrder "Factura_1001_1700000000" ⟨2024, 6, 1⟩
      ⟨"Gorra", none, none, 10000, 1⟩ (by decide)).1,
   (claim_C8_sku_cell exCompany exOrder "Factura_1001_1700000000" ⟨2024, 6, 1⟩
      ⟨"Gorra", none, none, 10000, 1⟩ (by decide)).2.2 rfl⟩

/-! ## Behaviour lemmas for `generate_invoice` (shared by the orchestrator claims) -/

/-- A OneDrive upload result used in concrete scenarios. -/
def exCloud : CloudInfo :=
  ⟨"doc-id-1", "https://onedrive.example/web", "https://onedrive.example/download"⟩

/-- A fully configured credential set as produced by the constructor
(the cached `access_token` slot is `None`). -/
def exOfficeFull : OfficeConfig :=
  initOfficeConfig (some "client-id") (some "client-secret") (some "tenant-id")

section GenerateInvoice

variable (fetch : String → Except String Order)
  (render : Order → String → Except String String)
  (upload : String → String → Except String CloudInfo)
  (office : OfficeConfig) (ts : ℤ) (order_id : String)
  (save_local upload_to_cloud : Bool)

theorem gi_fetch_err {e : String} (hf : fetch order_id = .error e) :
    generate_invoice fetch render upload office ts order_id save_local upload_to_cloud
      = (.err e, [], []) := by
  simp [generate_invoice, hf]

theorem gi_render_err {order_data : Order} {e : String}
    (hf : fetch order_id = .ok order_data)
    (hr : render order_data (invoiceFilename order_data ts) = .error e) :
    generate_invoice fetch render upload office ts order_id save_local upload_to_cloud
      = (.err e, [], []) := by
  simp [generate_invoice, hf, hr]

theorem gi_no_upload {order_data : Order} {path : String}
    (hf : fetch order_id = .ok order_data)
    (hr : render order_data (invoiceFilename order_data ts) = .ok path)
    (hc : (upload_to_cloud && officeAllTruthy office) = false) :
    generate_invoice fetch render upload office ts order_id save_local upload_to_cloud
      = (.ok order_data.order_number (if save_local then some path else none) none,
         [path], []) := by
  simp [generate_invoice, hf, hr, hc]

theorem gi_upload_err {order_data : Order} {path e : String}
    (hf : fetch order_id = .ok order_data)
    (hr : render order_data (invoiceFilename order_data ts) = .ok path)
    (hc : (upload_to_cloud && officeAllTruthy office) = true)
    (hu : upload path (invoiceFilename order_data ts) = .error e) :
    generate_invoice fetch render upload office ts order_id save_local upload_to_cloud
      = (.err e, [path], []) := by
  simp [generate_invoice, hf, hr, hc, hu]

theorem gi_upload_ok {order_data : Order} {path : String} {cloud_info : CloudInfo}
    (hf : fetch order_id = .ok order_data)
    (hr : render order_data (invoiceFilename order_data ts) = .ok path)
    (hc : (upload_to_cloud && officeAllTruthy office) = true)
    (hu : upload path (invoiceFilename order_data ts) = .ok cloud_info) :
    generate_invoice fetch render upload office ts order_id save_local upload_to_cloud
      = (.ok order_data.order_number (if save_local then some path else none)
           (some cloud_info),
         [path], if save_local then [] else [path]) := by
  cases save_local <;> simp [generate_invoice, hf, hr, hc, hu]

end GenerateInvoice

/-! ## Claim C2 -/

/-- C2: evaluation at the failing input.  With all three cloud credentials
configured (client id, client secret, tenant id all truthy) and
`upload_to_cloud = True`, a generator fresh from the constructor — whose
cached `access_token` slot is `None` — never performs the upload: the line-326
check `all(self.office_config.values())` ranges over all four stored values
including the `None` access token, so it is false, `cloud_info` is absent from
the result, and the rendered file is kept.  This contradicts the claim (and
the lazy token acquisition inside `upload_to_onedrive`, line 280, which exists
precisely to handle an empty `access_token`): the upload branch is unreachable
for a fresh generator. -/
theorem claim_C2_upload_skipped_with_full_credentials :
    truthyStr exOfficeFull.client_id = true
    ∧ truthyStr exOfficeFull.client_secret = true
    ∧ truthyStr exOfficeFull.tenant_id = true
    ∧ exOfficeFull.access_token = none
    ∧ officeAllTruthy exOfficeFull = false
    ∧ generate_invoice (fun _ => .ok exOrder) (fun _ fn => .ok (fn ++ ".docx"))
        (fun _ _ => .ok exCloud) exOfficeFull 1700000000 "1001" true true
      = (.ok "1001" (some "Factura_1001_1700000000.docx") none,
         ["Factura_1001_1700000000.docx"], []) :=
  ⟨rfl, rfl, rfl, rfl, rfl, rfl⟩

/-! ## Claim C3 -/

/-- C3: the orchestrator is total — its result is always either the tagged
error record or the tagged success record; each stage failure (fetch, render,
upload) becomes `{success: False, error: <message>}`; and on the happy path it
returns `{success: True, order_number, local_file_path}` (with `cloud_info`
attached when the upload branch ran). -/
theorem claim_C3_orchestrator_total_and_tags_failures
    (fetch : String → Except String Order)
    (render : Order → String → Except String String)
    (upload : String → String → Except String CloudInfo)
    (office : OfficeConfig) (ts : ℤ) (order_id : String)
    (save_local upload_to_cloud : Bool) :
    ((∃ e, (generate_invoice fetch render upload office ts order_id
              save_local upload_to_cloud).1 = .err e)
      ∨ (∃ n p c, (generate_invoice fetch render upload office ts order_id
              save_local upload_to_cloud).1 = .ok n p c))
    ∧ (∀ e, fetch order_id = .error e →
        (generate_invoice fetch render upload office ts order_id
          save_local upload_to_cloud).1 = .err e)
    ∧ (∀ order_data e, fetch order_id = .ok order_data →
        render order_data (invoiceFilename order_data ts) = .error e →
        (generate_invoice fetch render upload office ts order_id
          save_local upload_to_cloud).1 = .err e)
    ∧ (∀ order_data path e, fetch order_id = .ok order_data →
        render order_data (invoiceFilename order_data ts) = .ok path →
        (upload_to_cloud && officeAllTruthy office) = true →
        upload path (invoiceFilename order_data ts) = .error e →
        (generate_invoice fetch render upload office ts order_id
          save_local upload_to_cloud).1 = .err e)
    ∧ (∀ order_data path, fetch order_id = .ok order_data →
        render order_data (invoiceFilename order_data ts) = .ok path →
        ((upload_to_cloud && officeAllTruthy office) = false →
          (generate_invoice fetch render upload office ts order_id
            save_local upload_to_cloud).1
            = .ok order_data.order_number
                (if save_local then some path else none) none)
        ∧ (∀ cloud_info, (upload_to_cloud && officeAllTruthy office) = true →
            upload path (invoiceFilename order_data ts) = .ok cloud_info →
            (generate_invoice fetch render upload office ts order_id
              save_local upload_to_cloud).1
              = .ok order_data.order_number
                  (if save_local then some path else none) (some cloud_info))) := by
  refine ⟨?_, ?_, ?_, ?_, ?_⟩
  · rcases hf : fetch order_id with e | od
    · exact .inl ⟨e, by rw [gi_fetch_err fetch render upload office ts order_id
        save_local upload_to_cloud hf]⟩
    · rcases hr : render od (invoiceFilename od ts) with e | p
      · exact .inl ⟨e, by rw [gi_render_err fetch render upload office ts order_id
          save_local upload_to_cloud hf hr]⟩
      · rcases hc : upload_to_cloud && officeAllTruthy office with _ | _
        · exact .inr ⟨od.order_number, if save_local then some p else none, none,
            by rw [gi_no_upload fetch render upload office ts order_id
              save_local upload_to_cloud hf hr hc]⟩
        · rcases hu : upload p (invoiceFilename od ts) with e | ci
          · exact .inl ⟨e, by rw [gi_upload_err fetch render upload office ts order_id
              save_local upload_to_cloud hf hr hc hu]⟩
          · exact .inr ⟨od.order_number, if save_local then some p else none, some ci,
              by rw [gi_upload_ok fetch render upload office ts order_id
                save_local upload_to_cloud hf hr hc hu]⟩
  · intro e hf
    rw [gi_fetch_err fetch render upload office ts order_id save_local upload_to_cloud hf]
  · intro od e hf hr
    rw [gi_render_err fetch render upload office ts order_id save_local upload_to_cloud hf hr]
  · intro od p e hf hr hc hu
    rw [gi_upload_err fetch render upload office ts order_id save_local upload_to_cloud hf hr hc hu]
  · intro od p hf hr
    refine ⟨fun hc => ?_, fun ci hc hu => ?_⟩
    · rw [gi_no_upload fetch render upload office ts order_id save_local upload_to_cloud hf hr hc]
    · rw [gi_upload_ok fetch render upload office ts order_id save_local upload_to_cloud hf hr hc hu]

/-- Witness for C3: concrete stage functions exercising a fetch failure, an
upload failure, and the happy path, all hypotheses discharged by evaluation. -/
theorem claim_C3_orchestrator_total_and_tags_failures_witness :
    ((generate_invoice (fun _ => .error "boom") (fun _ fn => .ok (fn ++ ".docx"))
        (fun _ _ => .ok exCloud) exOfficeFull 1700000000 "1001" true false).1
      = .err "boom")
    ∧ ((generate_invoice (fun _ => .ok exOrder) (fun _ fn => .ok (fn ++ ".docx"))
          (fun _ _ => .error "upload failed")
          ⟨some "i", some "s", some "t", some "tok"⟩ 1700000000 "1001" true true).1
        = .err "upload failed")
    ∧ ((generate_invoice (fun _ => .ok exOrder) (fun _ fn => .ok (fn ++ ".docx"))
          (fun _ _ => .ok exCloud) exOfficeFull 1700000000 "1001" true false).1
        = .ok "1001" (some "Factura_1001_1700000000.docx") none) :=
  ⟨(claim_C3_orchestrator_total_and_tags_failures (fun _ => .error "boom")
      (fun _ fn => Except.ok (fn ++ ".docx")) (fun _ _ => .ok exCloud) exOfficeFull 1700000000 "1001" true false).2.1
      "boom" rfl,
   (claim_C3_orchestrator_total_and_tags_failures (fun _ => .ok exOrder)
      (fun _ fn => Except.ok (fn ++ ".docx")) (fun _ _ => .error "upload failed")
      ⟨some "i", some "s", some "t", some "tok"⟩ 1700000000 "1001" true true).2.2.2.1
      exOrder "Factura_1001_1700000000.docx" "upload failed" rfl rfl rfl rfl,
   ((claim_C3_orchestrator_total_and_tags_failures (fun _ => .ok exOrder)
      (fun _ fn => Except.ok (fn ++ ".docx")) (fun _ _ => .ok exCloud) exOfficeFull 1700000000 "1001" true false).2.2.2.2
      exOrder "Factura_1001_1700000000.docx" rfl rfl).1 rfl⟩

/-! ## Claim C4 -/

/-- C4: when the Shopify fetch fails, the orchestrator returns the tagged
error carrying the upstream message, no file is written, and the result is
independent of the render and upload stages (they are never reached). -/
theorem claim_C4_fetch_failure_no_file
    (fetch : String → Except String Order)
    (render render' : Order → String → Except String String)
    (upload upload' : String → String → Except String CloudInfo)
    (office : OfficeConfig) (ts : ℤ) (order_id : String)
    (save_local upload_to_cloud : Bool) (e : String)
    (hf : fetch order_id = .error e) :
    generate_invoice fetch render upload office ts order_id save_local upload_to_cloud
      = (.err e, [], [])
    ∧ generate_invoice fetch render upload office ts order_id save_local upload_to_cloud
      = generate_invoice fetch render' upload' office ts order_id
          save_local upload_to_cloud := by
  constructor
  · exact gi_fetch_err fetch render upload office ts order_id
      save_local upload_to_cloud hf
  · rw [gi_fetch_err fetch render upload office ts order_id
      save_local upload_to_cloud hf,
      gi_fetch_err fetch render' upload' office ts order_id
      save_local upload_to_cloud hf]

/-- Witness for C4: a concrete HTTP-404 fetch failure, hypothesis discharged
by evaluation. -/
theorem claim_C4_fetch_failure_no_file_witness :
    generate_invoice (fun _ => .error "404 Client Error: Not Found")
      (fun _ fn => .ok (fn ++ ".docx")) (fun _ _ => .ok exCloud)
      exOfficeFull 1700000000 "9999" true false
      = (.err "404 Client Error: Not Found", [], []) :=
  (claim_C4_fetch_failure_no_file (fun _ => .error "404 Client Error: Not Found")
    (fun _ fn => .ok (fn ++ ".docx")) (fun _ fn => .ok (fn ++ ".docx"))
    (fun _ _ => .ok exCloud) (fun _ _ => .ok exCloud)
    exOfficeFull 1700000000 "9999" true false "404 Client Error: Not Found" rfl).1

/-! ## Claim C10 -/

/-- C10: on a successful run with `save_local = False` in which no upload is
performed (`upload_to_cloud` false or the truthiness check failing), the
result's `local_file_path` is `None`, yet the rendered file was written and is
never deleted — the caller gets no reference to a file that still exists. -/
theorem claim_C10_save_local_false_orphans_file
    (fetch : String → Except String Order)
    (render : Order → String → Except String String)
    (upload : String → String → Except String CloudInfo)
    (office : OfficeConfig) (ts : ℤ) (order_id : String) (upload_to_cloud : Bool)
    (order_data : Order) (path : String)
    (hf : fetch order_id = .ok order_data)
    (hr : render order_data (invoiceFilename order_data ts) = .ok path)
    (hskip : upload_to_cloud = false ∨ officeAllTruthy office = false) :
    generate_invoice fetch render upload office ts order_id false upload_to_cloud
      = (.ok order_data.order_number none none, [path], []) := by
  have hc : (upload_to_cloud && officeAllTruthy office) = false := by
    rcases hskip with h | h <;> simp [h]
  simpa using gi_no_upload fetch render upload office ts order_id
    false upload_to_cloud hf hr hc

/-- Witness for C10: concrete run with `save_local = False` and
`upload_to_cloud = False`; the file is written, not deleted, and the result
holds no path. -/
theorem claim_C10_save_local_false_orphans_file_witness :
    generate_invoice (fun _ => .ok exOrder) (fun _ fn => .ok (fn ++ ".docx"))
      (fun _ _ => .ok exCloud) exOfficeFull 1700000000 "1001" false false
      = (.ok "1001" none none, ["Factura_1001_1700000000.docx"], []) :=
  claim_C10_save_local_false_orphans_file (fun _ => .ok exOrder)
    (fun _ fn => .ok (fn ++ ".docx")) (fun _ _ => .ok exCloud)
    exOfficeFull 1700000000 "1001" false exOrder
    "Factura_1001_1700000000.docx" rfl rfl (.inl rfl)
